import Mathlib

/-!
Verification of the session/process orchestration engine of a chat relay
server.  The provider class from the source is embedded shallowly: its
mutable fields become a `ProviderState` record, every method becomes a pure
function from inputs and state to a new state plus a list of observable
`Effect`s (client pushes, subprocess spawns, kill signals, file writes,
promise resolutions).  Wall-clock reads are threaded as a `now : Nat`
parameter.  JavaScript string truthiness is modelled explicitly where the
source relies on it.
-/

/-- Truthiness of a nullable JS string: null, undefined and the empty
string are falsy, every other string is truthy. -/
def strOptTruthy : Option String → Bool
  | none => false
  | some s => s ≠ ""

/-- Whether the second list is a leading segment of the first, by direct
structural recursion so that concrete instances evaluate in the kernel. -/
def hasPrefixL : List Char → List Char → Bool
  | _, [] => true
  | [], _ :: _ => false
  | a :: as, b :: bs => a == b && hasPrefixL as bs

/-- Whether the second list occurs contiguously inside the first. -/
def hasSubL : List Char → List Char → Bool
  | l, p => hasPrefixL l p ||
      match l with
      | [] => false
      | _ :: as => hasSubL as p

/-- Model of the JS String.prototype.includes substring test; the empty
pattern is contained in every string. -/
def strContains (s pat : String) : Bool :=
  hasSubL s.data pat.data

/-- Model of the JS String.prototype.startsWith test. -/
def jsStartsWith (s pat : String) : Bool :=
  hasPrefixL s.data pat.data

/-- Model of the JS String.prototype.trim call: strips leading and
trailing whitespace. -/
def jsTrim (s : String) : String :=
  ⟨((s.data.dropWhile Char.isWhitespace).reverse.dropWhile
      Char.isWhitespace).reverse⟩

/-- Model of the JS substring call from index zero: the first n
characters. -/
def jsTake (s : String) (n : Nat) : String :=
  ⟨s.data.take n⟩

/-- Model of the JS length property. -/
def jsLength (s : String) : Nat :=
  s.data.length

/-- Model of the JS toLowerCase call. -/
def jsToLower (s : String) : String :=
  ⟨s.data.map Char.toLower⟩

/-- Model of Date timestamps: the code only ever stores and compares these
strings, so an injective rendering of the clock value suffices. -/
def isoTimestamp (now : Nat) : String := toString now

/-- Payload of a sessionInfo event, from the system/init stream frame. -/
structure SessionInfoData where
  sessionId : Option String
  tools : List String
  mcpServers : List String
  deriving DecidableEq

/-- Payload of an updateTokens event. -/
structure TokensData where
  totalTokensInput : Nat
  totalTokensOutput : Nat
  currentInputTokens : Nat
  currentOutputTokens : Nat
  currentCost : Rat
  requestCount : Nat
  cacheCreationTokens : Nat
  cacheReadTokens : Nat
  deriving DecidableEq

/-- Payload of an updateTotals event. -/
structure TotalsData where
  totalCost : Rat
  totalTokensInput : Nat
  totalTokensOutput : Nat
  requestCount : Nat
  totalDuration : Nat
  currentDuration : Nat
  currentCost : Rat
  deriving DecidableEq

/-- One item of a TodoWrite tool input. -/
structure TodoItem where
  status : String
  content : String
  priority : String
  deriving DecidableEq

/-- Raw input of a tool_use content block: either a todos object, as read
by the TodoWrite pretty printer, or an opaque JSON payload. -/
inductive ToolInput where
  | todos (items : List TodoItem)
  | other (raw : String)
  deriving DecidableEq

/-- Payload of a toolUse event. -/
structure ToolUseData where
  toolInfo : String
  toolInput : String
  rawInput : ToolInput
  toolName : String
  toolUseId : Option String
  deriving DecidableEq

/-- Payload of a toolResult event. -/
structure ToolResultData where
  content : String
  isError : Bool
  toolUseId : Option String
  toolName : String
  deriving DecidableEq

/-- One entry of a workspaceFiles event list.  Relative paths are kept as
component lists so that path-component properties are well defined;
joining with the separator recovers the JS string. -/
structure WorkspaceFile where
  name : String
  path : List String
  deriving DecidableEq

/-- Tagged payload of a client-facing message, one constructor per payload
shape used by the modelled methods. -/
inductive EventData where
  | str (s : String)
  | procFlag (isProcessing : Bool)
  | sessionInfoD (d : SessionInfoData)
  | tokens (d : TokensData)
  | totals (d : TotalsData)
  | toolUse (d : ToolUseData)
  | toolResult (d : ToolResultData)
  | permReq (id tool command : String)
  | files (fs : List WorkspaceFile)
  deriving DecidableEq

/-- A client-facing message: a type discriminator plus payload. -/
structure Msg where
  type : String
  data : EventData
  deriving DecidableEq

/-- A timestamped conversation entry as built by sendAndSaveMessage.  The
typeField component models the JS property named type: entries written by
this program never carry one, so it is none for them, but a record decoded
from disk may in principle contain it. -/
structure Entry where
  timestamp : String
  messageType : String
  data : EventData
  typeField : Option String
  deriving DecidableEq

/-- A persisted conversation record.  The writer fills every field; a
record decoded from disk may omit the optional ones, which the loader
defaults.  The nested totalTokens object is flattened into its input and
output components. -/
structure ConversationData where
  sessionId : Option String
  title : Option String
  startTime : Option String
  endTime : Option String
  messageCount : Option Nat
  totalCost : Option Rat
  totalTokensInput : Option Nat
  totalTokensOutput : Option Nat
  messages : List Entry
  deriving DecidableEq

/-- The mutable fields of the provider object.  The subprocess handle is
opaque: only its presence matters.  The permissions object and the pending
permissions map are association structures; the pending map only ever
holds resolver functions, so its entries are represented by their keys. -/
structure ProviderState where
  currentClaudeProcess : Option Unit
  currentSessionId : Option String
  selectedModel : String
  isProcessing : Bool
  totalCost : Rat
  totalTokensInput : Nat
  totalTokensOutput : Nat
  requestCount : Nat
  currentConversation : List Entry
  conversationStartTime : Option String
  thinkingMode : Bool
  mcpConfigPath : String
  permissions : List (String × Bool)
  pendingPermissions : List String
  deriving DecidableEq

/-- Observable side effects of the provider methods. -/
inductive Effect where
  | post (m : Msg)
  | spawn (args : List String) (stdinText : String)
  | kill (signal : String)
  | writeFile (filename : String) (record : ConversationData)
  | resolvePromise (requestId : String) (approved : Bool)
  | savePermissions (perms : List (String × Bool))
  deriving DecidableEq

/-- The conversation records written by a list of effects, in order. -/
def savedRecords (evs : List Effect) : List (String × ConversationData) :=
  evs.filterMap fun e =>
    match e with
    | .writeFile f r => some (f, r)
    | _ => none

/-- The argument lists of the subprocesses spawned by a list of effects. -/
def spawnedArgs (evs : List Effect) : List (List String) :=
  evs.filterMap fun e =>
    match e with
    | .spawn a _ => some a
    | _ => none

/-- The messages pushed to the client by a list of effects, in order. -/
def postedMsgs (evs : List Effect) : List Msg :=
  evs.filterMap fun e =>
    match e with
    | .post m => some m
    | _ => none

/-- The sendAndSaveMessage method: stamps the start time when the
conversation is empty, appends a timestamped entry, and pushes the same
message to the client as one step. -/
def sendAndSaveMessage (now : Nat) (m : Msg) (st : ProviderState) :
    ProviderState × List Effect :=
  let st := if st.currentConversation.isEmpty then
      { st with conversationStartTime := some (isoTimestamp now) }
    else st
  ({ st with currentConversation :=
      st.currentConversation ++
        [{ timestamp := isoTimestamp now, messageType := m.type,
           data := m.data, typeField := none }] },
   [Effect.post m])

/-- The busy rejection notice pushed when a send arrives while one is in
flight. -/
def busyNotice : String :=
  "Already processing a message. Please wait or stop the current request."

/-- Name of the MCP approval tool passed on the command line. -/
def approvalToolName : String :=
  "mcp__claude-code-chat-permissions__approval_prompt"

/-- A session identifier qualifies for the resume flag when it is truthy
and does not carry one of the locally generated name markers. -/
def isResumableId (id : String) : Bool :=
  id ≠ "" && !jsStartsWith id "session_" && !jsStartsWith id "conversation_"

/-- Whether the current session identifier qualifies for the resume
flag. -/
def resumeOkState (st : ProviderState) : Bool :=
  match st.currentSessionId with
  | some id => isResumableId id
  | none => false

/-- Leading arguments of the assistant CLI invocation: the streaming
output flags plus, when the MCP config file exists, the permission
wiring. -/
def claudeBaseArgs (mcpExists : Bool) (st : ProviderState) : List String :=
  ["-p", "--output-format", "stream-json", "--verbose"] ++
    (if mcpExists then
      ["--mcp-config", st.mcpConfigPath,
       "--allowedTools", approvalToolName,
       "--permission-prompt-tool", approvalToolName]
    else [])

/-- Session continuation arguments, read from the state at the moment the
argument list is built. -/
def claudeContinueArgs (st : ProviderState) : List String :=
  match st.currentSessionId with
  | some id =>
      if isResumableId id then ["--resume", id]
      else if st.currentConversation.length > 0 then ["--continue"] else []
  | none =>
      if st.currentConversation.length > 0 then ["--continue"] else []

/-- Trailing arguments: model override and the think flag. -/
def claudeTailArgs (thinkingMode : Bool) (st : ProviderState) : List String :=
  (if st.selectedModel ≠ "" && st.selectedModel ≠ "default" then
      ["--model", st.selectedModel]
    else []) ++
  (if thinkingMode then ["--think"] else [])

/-- Full argument list of the assistant CLI invocation. -/
def claudeArgs (mcpExists thinkingMode : Bool) (st : ProviderState) :
    List String :=
  claudeBaseArgs mcpExists st ++ claudeContinueArgs st ++
    claudeTailArgs thinkingMode st

/-- The sendMessage method.  When a request is already in flight it only
pushes the busy notice.  Otherwise it stamps the start time on a fresh
session, appends and pushes the user input entry, raises the processing
flag, pushes the setProcessing event, builds the argument list from the
state as updated so far, prefixes the outgoing text in plan mode, records
the subprocess handle and spawns the subprocess. -/
def sendMessage (now : Nat) (mcpExists : Bool) (message : String)
    (planMode thinkingMode : Bool) (st : ProviderState) :
    ProviderState × List Effect :=
  if st.isProcessing then
    (st, [Effect.post { type := "error", data := .str busyNotice }])
  else
    let st := if strOptTruthy st.currentSessionId then st
      else { st with conversationStartTime := some (isoTimestamp now) }
    let r₁ := sendAndSaveMessage now { type := "userInput", data := .str message } st
    let st := { r₁.1 with isProcessing := true }
    let evs₂ := [Effect.post { type := "setProcessing", data := .procFlag true }]
    let args := claudeArgs mcpExists thinkingMode st
    let actualMessage := if planMode then "plan\n\n" ++ message else message
    let st := { st with currentClaudeProcess := some () }
    (st, r₁.2 ++ evs₂ ++ [Effect.spawn args actualMessage])

/-- Title derivation of saveCurrentConversation: the first fifty
characters of the first user input entry whose data is a truthy string,
trimmed, with the ellipsis marker appended when the text is longer than
fifty characters; the untitled fallback otherwise. -/
def deriveTitle (conv : List Entry) : String :=
  match conv.find? (fun m => m.messageType == "userInput") with
  | some m =>
      match m.data with
      | .str s =>
          if s ≠ "" then
            let t := jsTrim (jsTake s 50)
            if jsLength s > 50 then t ++ "..." else t
          else "Untitled Conversation"
      | _ => "Untitled Conversation"
  | none => "Untitled Conversation"

/-- The saveCurrentConversation method: a no-op unless the session
identifier is truthy and at least one entry exists; otherwise it overwrites
the record file wholesale.  The filename ternary keeps the source's
time-based fallback branch even though the guard makes it unreachable. -/
def saveCurrentConversation (now : Nat) (st : ProviderState) : List Effect :=
  if !strOptTruthy st.currentSessionId || st.currentConversation.isEmpty then
    []
  else
    let title := deriveTitle st.currentConversation
    let cdata : ConversationData :=
      { sessionId := st.currentSessionId
        title := some title
        startTime := st.conversationStartTime
        endTime := some (isoTimestamp now)
        messageCount := some st.currentConversation.length
        totalCost := some st.totalCost
        totalTokensInput := some st.totalTokensInput
        totalTokensOutput := some st.totalTokensOutput
        messages := st.currentConversation }
    let filename := if strOptTruthy st.currentSessionId then
        st.currentSessionId.getD "" ++ ".json"
      else "conversation_" ++ toString now ++ ".json"
    [Effect.writeFile filename cdata]

/-- The close handler installed on the subprocess: clears the in-flight
bookkeeping, pushes setProcessing false, on a non-zero (or null) exit code
appends and pushes an error entry carrying the trimmed stderr text or the
generic fallback, and finally saves the current conversation.  The exit
code is optional because a signal-terminated process reports null. -/
def onProcessClose (now : Nat) (code : Option Int) (errorOutput : String)
    (st : ProviderState) : ProviderState × List Effect :=
  let st := { st with isProcessing := false, currentClaudeProcess := none }
  let evs₁ := [Effect.post { type := "setProcessing", data := .procFlag false }]
  let r :=
    if code ≠ some 0 then
      sendAndSaveMessage now
        { type := "error",
          data := .str (if jsTrim errorOutput = "" then
              "Claude exited with code " ++
                (match code with | some n => toString n | none => "null")
            else jsTrim errorOutput) } st
    else (st, [])
  (r.1, evs₁ ++ r.2 ++ saveCurrentConversation now r.1)

/-- The stopCurrentRequest method: with no live subprocess handle it does
nothing; otherwise it sends SIGTERM, clears the handle and the processing
flag, and appends and pushes the synthetic cancellation error entry. -/
def stopCurrentRequest (now : Nat) (st : ProviderState) :
    ProviderState × List Effect :=
  match st.currentClaudeProcess with
  | none => (st, [])
  | some _ =>
      let st := { st with currentClaudeProcess := none, isProcessing := false }
      let r := sendAndSaveMessage now
        { type := "error", data := .str "Claude code was stopped." } st
      (r.1, Effect.kill "SIGTERM" :: r.2)

/-- Usage block of a stream frame, with every field optional as in the
incoming JSON. -/
structure UsageData where
  input_tokens : Option Nat
  output_tokens : Option Nat
  total_cost : Option Rat
  cache_creation_input_tokens : Option Nat
  cache_read_input_tokens : Option Nat
  deriving DecidableEq

/-- One content block of a stream message, projected onto the fields the
dispatcher reads. -/
inductive ContentBlock where
  | text (text : String)
  | thinking (thinking : String)
  | tool_use (name : String) (input : ToolInput) (tool_use_id : Option String)
  | tool_result (content : Option String) (is_error : Option Bool)
      (tool_use_id : Option String) (name : Option String)
  | otherBlock (kind : String)
  deriving DecidableEq

/-- The message object of a stream frame. -/
structure ChatMsg where
  role : Option String
  content : List ContentBlock
  usage : Option UsageData
  deriving DecidableEq

/-- A decoded stream frame, projected onto the fields the dispatcher
reads.  Absent JSON keys are none. -/
structure StreamFrame where
  type : Option String
  subtype : Option String
  session_id : Option String
  message : Option ChatMsg
  usage : Option UsageData
  tools : Option (List String)
  mcp_servers : Option (List String)
  duration : Option Nat
  cost : Option Rat
  total_cost_usd : Option Rat
  deriving DecidableEq

/-- Pretty printer for one todo item of a TodoWrite input. -/
def formatTodo (t : TodoItem) : String :=
  (if t.status = "completed" then "[DONE]"
   else if t.status = "in_progress" then "[IN PROGRESS]" else "[TODO]") ++
  " " ++ t.content ++ " (priority: " ++ t.priority ++ ")"

/-- Tool input summary built for the toolUse event: the special rendering
when the tool is TodoWrite and the input carries a todos list, empty
otherwise. -/
def formatToolInput (name : String) (input : ToolInput) : String :=
  match name, input with
  | "TodoWrite", .todos items =>
      items.foldl (fun acc t => acc ++ "\n" ++ formatTodo t) "Todo List Update:"
  | _, _ => ""

/-- Per-content-block processing of an assistant frame: non-empty trimmed
text becomes an output event, non-empty trimmed thinking text a thinking
event, a tool_use block a toolUse event; other blocks emit nothing. -/
def processAssistantContent (now : Nat) (st : ProviderState)
    (blocks : List ContentBlock) : ProviderState × List Effect :=
  blocks.foldl
    (fun acc c =>
      match c with
      | .text t =>
          if jsTrim t ≠ "" then
            let r := sendAndSaveMessage now
              { type := "output", data := .str (jsTrim t) } acc.1
            (r.1, acc.2 ++ r.2)
          else acc
      | .thinking t =>
          if jsTrim t ≠ "" then
            let r := sendAndSaveMessage now
              { type := "thinking", data := .str (jsTrim t) } acc.1
            (r.1, acc.2 ++ r.2)
          else acc
      | .tool_use name input tid =>
          let r := sendAndSaveMessage now
            { type := "toolUse",
              data := .toolUse
                { toolInfo := name, toolInput := formatToolInput name input,
                  rawInput := input, toolName := name, toolUseId := tid } } acc.1
          (r.1, acc.2 ++ r.2)
      | _ => acc)
    (st, [])

/-- The processJsonStreamData dispatcher, one case per type discriminator
of the decoded frame. -/
def processJsonStreamData (now : Nat) (j : StreamFrame) (st : ProviderState) :
    ProviderState × List Effect :=
  match j.type with
  | some "system" =>
      if j.subtype = some "init" then
        let st := { st with currentSessionId := j.session_id }
        sendAndSaveMessage now
          { type := "sessionInfo",
            data := .sessionInfoD
              { sessionId := j.session_id, tools := j.tools.getD [],
                mcpServers := (j.mcp_servers).getD [] } } st
      else (st, [])
  | some "user" =>
      match j.message with
      | some msg =>
          match msg.content.head? with
          | some (.tool_result content isErr tid name) =>
              sendAndSaveMessage now
                { type := "toolResult",
                  data := .toolResult
                    { content := content.getD "", isError := isErr.getD false,
                      toolUseId := tid, toolName := name.getD "unknown" } } st
          | _ => (st, [])
      | none => (st, [])
  | some "permission_request" => (st, [])
  | some "assistant" =>
      match j.message with
      | some msg =>
          if msg.role == some "assistant" then
            let r₁ :=
              match msg.usage with
              | some u =>
                  let st :=
                    { st with
                      totalTokensInput :=
                        st.totalTokensInput + (u.input_tokens).getD 0,
                      totalTokensOutput :=
                        st.totalTokensOutput + (u.output_tokens).getD 0,
                      requestCount := st.requestCount + 1 }
                  let r := sendAndSaveMessage now
                    { type := "updateTokens",
                      data := .tokens
                        { totalTokensInput := st.totalTokensInput,
                          totalTokensOutput := st.totalTokensOutput,
                          currentInputTokens := (u.input_tokens).getD 0,
                          currentOutputTokens := (u.output_tokens).getD 0,
                          currentCost := (u.total_cost).getD 0,
                          requestCount := st.requestCount,
                          cacheCreationTokens :=
                            (u.cache_creation_input_tokens).getD 0,
                          cacheReadTokens :=
                            (u.cache_read_input_tokens).getD 0 } } st
                  ({ r.1 with totalCost := r.1.totalCost + (u.total_cost).getD 0 },
                   r.2)
              | none => (st, [])
            let r₂ := processAssistantContent now r₁.1 msg.content
            (r₂.1, r₁.2 ++ r₂.2)
          else (st, [])
      | none => (st, [])
  | some "final" =>
      let st := if strOptTruthy j.session_id then
          { st with currentSessionId := j.session_id }
        else st
      sendAndSaveMessage now
        { type := "updateTotals",
          data := .totals
            { totalCost := st.totalCost,
              totalTokensInput := st.totalTokensInput,
              totalTokensOutput := st.totalTokensOutput,
              requestCount := st.requestCount,
              totalDuration := j.duration.getD 0,
              currentDuration := j.duration.getD 0,
              currentCost := j.cost.getD 0 } } st
  | some "result" =>
      let st := if strOptTruthy j.session_id then
          { st with currentSessionId := j.session_id }
        else st
      match j.usage with
      | some u =>
          sendAndSaveMessage now
            { type := "updateTokens",
              data := .tokens
                { totalTokensInput := st.totalTokensInput,
                  totalTokensOutput := st.totalTokensOutput,
                  currentInputTokens := (u.input_tokens).getD 0,
                  currentOutputTokens := (u.output_tokens).getD 0,
                  currentCost := (j.total_cost_usd).getD 0,
                  requestCount := st.requestCount,
                  cacheCreationTokens := (u.cache_creation_input_tokens).getD 0,
                  cacheReadTokens := (u.cache_read_input_tokens).getD 0 } } st
      | none => (st, [])
  | _ => (st, [])

/-- Per-line processing of the stdout stream: blank lines are skipped, a
line that decodes as JSON is dispatched, and a line that fails to decode
is absorbed as plain output text.  The decoder of the JSON library is a
parameter. -/
def processLine (now : Nat) (parse : String → Option StreamFrame)
    (line : String) (st : ProviderState) : ProviderState × List Effect :=
  if jsTrim line = "" then (st, [])
  else
    match parse (jsTrim line) with
    | some j => processJsonStreamData now j st
    | none =>
        sendAndSaveMessage now { type := "output", data := .str (jsTrim line) } st

/-- Outcome of the legacy promise-based approval path: either the promise
resolves immediately with a value, or it is suspended under a fresh
request identifier awaiting a later response. -/
inductive ApprovalOutcome where
  | resolved (value : Bool)
  | pendingId (requestId : String)
  deriving DecidableEq

/-- Lookup in the permissions object, modelled as an association list with
JS object key uniqueness maintained by assocSet. -/
def assocGet (key : String) (m : List (String × Bool)) : Option Bool :=
  (m.find? (fun p => p.1 == key)).map (fun p => p.2)

/-- Assignment into the permissions object: replaces an existing binding
or appends a new one. -/
def assocSet (key : String) (v : Bool) (m : List (String × Bool)) :
    List (String × Bool) :=
  if m.any (fun p => p.1 == key) then
    m.map (fun p => if p.1 == key then (key, v) else p)
  else m ++ [(key, v)]

/-- The handlePermissionRequest method: with a truthy saved permission
under the composite key the promise resolves immediately true with no
event; otherwise a time-based request identifier is minted, a resolver is
stored in the pending map, and a permissionRequest event is pushed. -/
def handlePermissionRequest (now : Nat) (toolName command : String)
    (st : ProviderState) : ProviderState × List Effect × ApprovalOutcome :=
  let permissionKey := toolName ++ ":" ++ command
  if (assocGet permissionKey st.permissions).getD false then
    (st, [], .resolved true)
  else
    let requestId := "perm_" ++ toString now
    ({ st with pendingPermissions := st.pendingPermissions ++ [requestId] },
     [Effect.post { type := "permissionRequest",
                    data := .permReq requestId toolName command }],
     .pendingId requestId)

/-- The handlePermissionResponse method: an unknown identifier is a no-op;
otherwise the resolver is invoked and removed, and on an approved
always-allow response the code reads the pending map again under the
identifier with the data suffix.  No code path ever stores an entry under
such a key, and the values the map does hold are resolver functions with
no tool or command properties, so were one ever found the interpolated
permission key would read undefined for both parts. -/
def handlePermissionResponse (id : String) (approved alwaysAllow : Bool)
    (st : ProviderState) : ProviderState × List Effect :=
  if st.pendingPermissions.contains id then
    let evs := [Effect.resolvePromise id approved]
    let st := { st with pendingPermissions := st.pendingPermissions.erase id }
    if approved && alwaysAllow then
      if st.pendingPermissions.contains (id ++ "_data") then
        let st := { st with
          permissions := assocSet "undefined:undefined" true st.permissions }
        (st, evs ++ [Effect.savePermissions st.permissions])
      else (st, evs)
    else (st, evs)
  else (st, [])

/-- The loadConversation method over a decoded view of the conversations
directory: the first file whose name contains the requested identifier or
whose decoded record carries it replaces the whole in-memory session; no
match returns null and leaves the state untouched.  The request count is
recomputed from the filter the source applies, which reads the type
property of each stored entry. -/
def loadConversation (target : String)
    (store : List (String × ConversationData)) (st : ProviderState) :
    ProviderState × Option ConversationData :=
  match store.find? (fun fd =>
      strContains fd.1 target || fd.2.sessionId == some target) with
  | none => (st, none)
  | some (_, conv) =>
      ({ st with
          currentSessionId := conv.sessionId
          currentConversation := conv.messages
          conversationStartTime := conv.startTime
          totalCost := conv.totalCost.getD 0
          totalTokensInput := conv.totalTokensInput.getD 0
          totalTokensOutput := conv.totalTokensOutput.getD 0
          requestCount :=
            (conv.messages.filter (fun m => m.typeField == some "userInput")).length },
       some conv)

/-- A node of the workspace file tree: the directory listing gives each
name, and the stat call distinguishes files from directories, whose
listings are the child lists. -/
inductive FsItem where
  | file (name : String)
  | dir (name : String) (children : List FsItem)

/-- The skip test of the search: hidden names and the node_modules
directory are ignored. -/
def skipName (s : String) : Bool :=
  jsStartsWith s "." || s == "node_modules"

/-- The match test of the search: an empty term matches everything,
otherwise case-insensitive substring containment on the item name. -/
def matchesTerm (searchTerm item : String) : Bool :=
  searchTerm == "" || strContains (jsToLower item) (jsToLower searchTerm)

mutual

/-- Search of one item of the tree walk, accumulating the relative path as
a component list. -/
def searchItem (searchTerm : String) (pre : List String) :
    FsItem → List (List String)
  | .file n =>
      if skipName n then []
      else if matchesTerm searchTerm n then [pre ++ [n]] else []
  | .dir n children =>
      if skipName n then []
      else searchItems searchTerm (pre ++ [n]) children

/-- Search of a directory listing in order, concatenating the results of
each item depth first as the source's recursion does. -/
def searchItems (searchTerm : String) (pre : List String) :
    List FsItem → List (List String)
  | [] => []
  | i :: rest =>
      searchItem searchTerm pre i ++ searchItems searchTerm pre rest

end

/-- The limited, object-shaped result list of getWorkspaceFiles: the first
fifty hits, each paired with its basename. -/
def limitedFiles (searchTerm : String) (root : List FsItem) :
    List WorkspaceFile :=
  ((searchItems searchTerm [] root).take 50).map
    (fun p => { name := (p.getLast?).getD "", path := p })

/-- The getWorkspaceFiles method: walks the project tree and pushes one
workspaceFiles event carrying the limited result list. -/
def getWorkspaceFiles (searchTerm : String) (root : List FsItem) :
    List Effect :=
  [Effect.post { type := "workspaceFiles",
                 data := .files (limitedFiles searchTerm root) }]

/-- The provider state as built by the constructor before any session is
resumed from disk. -/
def initialState (projectRoot : String) : ProviderState :=
  { currentClaudeProcess := none
    currentSessionId := none
    selectedModel := "default"
    isProcessing := false
    totalCost := 0
    totalTokensInput := 0
    totalTokensOutput := 0
    requestCount := 0
    currentConversation := []
    conversationStartTime := none
    thinkingMode := false
    mcpConfigPath := projectRoot ++ "/.claude-code-chat/mcp-servers.json"
    permissions := []
    pendingPermissions := [] }

theorem savedRecords_append (a b : List Effect) :
    savedRecords (a ++ b) = savedRecords a ++ savedRecords b := by
  simp [savedRecords]

theorem spawnedArgs_append (a b : List Effect) :
    spawnedArgs (a ++ b) = spawnedArgs a ++ spawnedArgs b := by
  simp [spawnedArgs]

/-- C1: with a request already in flight, sendMessage pushes exactly the
busy error event, spawns nothing, appends nothing, and leaves the whole
provider state unchanged. -/
theorem send_busy_rejected (now : Nat) (mcpExists : Bool) (message : String)
    (planMode thinkingMode : Bool) (st : ProviderState)
    (h : st.isProcessing = true) :
    sendMessage now mcpExists message planMode thinkingMode st =
      (st, [Effect.post { type := "error", data := .str busyNotice }]) := by
  simp [sendMessage, h]

/-- A provider state with a request in flight. -/
def busyState : ProviderState :=
  { initialState "/project" with isProcessing := true }

/-- Witness for C1 at a concrete busy state. -/
theorem send_busy_rejected_witness :
    busyState.isProcessing = true ∧
      sendMessage 0 false "hi" false false busyState =
        (busyState, [Effect.post { type := "error", data := .str busyNotice }]) :=
  ⟨rfl, send_busy_rejected 0 false "hi" false false busyState rfl⟩

/-- C3: a non-blank stdout line that fails JSON decoding yields exactly
one output event carrying the trimmed line, appends exactly one matching
entry, and touches no other session state, in particular surfacing no
error. -/
theorem nonjson_line_absorbed (now : Nat)
    (parse : String → Option StreamFrame) (line : String)
    (st : ProviderState) (hne : jsTrim line ≠ "")
    (hfail : parse (jsTrim line) = none) :
    (processLine now parse line st).2 =
      [Effect.post { type := "output", data := .str (jsTrim line) }] ∧
    (processLine now parse line st).1.currentConversation =
      st.currentConversation ++
        [{ timestamp := isoTimestamp now, messageType := "output",
           data := .str (jsTrim line), typeField := none }] ∧
    (processLine now parse line st).1.isProcessing = st.isProcessing ∧
    (processLine now parse line st).1.currentSessionId = st.currentSessionId ∧
    (processLine now parse line st).1.totalCost = st.totalCost ∧
    (processLine now parse line st).1.requestCount = st.requestCount := by
  by_cases hc : st.currentConversation.isEmpty <;>
    simp [processLine, hne, hfail, sendAndSaveMessage, hc]

/-- Witness for C3 on the line of the spec example with a decoder that
rejects everything. -/
theorem nonjson_line_absorbed_witness :
    jsTrim "plain text" ≠ "" ∧
      (processLine 7 (fun _ => none) "plain text" (initialState "/p")).2 =
        [Effect.post { type := "output", data := .str (jsTrim "plain text") }] :=
  ⟨by decide,
   (nonjson_line_absorbed 7 (fun _ => none) "plain text" (initialState "/p")
      (by decide) rfl).1⟩

/-- C6: stopCurrentRequest with no live subprocess is a strict no-op;
with one it emits the termination signal, clears the handle and the
processing flag, and appends and pushes exactly one synthetic
cancellation error entry, leaving every other session field unchanged. -/
theorem stop_request_spec (now : Nat) (st : ProviderState) :
    (st.currentClaudeProcess = none → stopCurrentRequest now st = (st, [])) ∧
    (st.currentClaudeProcess = some () →
      (stopCurrentRequest now st).2 =
        [Effect.kill "SIGTERM",
         Effect.post { type := "error", data := .str "Claude code was stopped." }] ∧
      (stopCurrentRequest now st).1.isProcessing = false ∧
      (stopCurrentRequest now st).1.currentClaudeProcess = none ∧
      (stopCurrentRequest now st).1.currentConversation =
        st.currentConversation ++
          [{ timestamp := isoTimestamp now, messageType := "error",
             data := .str "Claude code was stopped.", typeField := none }] ∧
      (stopCurrentRequest now st).1.currentSessionId = st.currentSessionId ∧
      (stopCurrentRequest now st).1.totalCost = st.totalCost ∧
      (stopCurrentRequest now st).1.totalTokensInput = st.totalTokensInput ∧
      (stopCurrentRequest now st).1.totalTokensOutput = st.totalTokensOutput ∧
      (stopCurrentRequest now st).1.requestCount = st.requestCount) := by
  constructor
  · intro h
    simp [stopCurrentRequest, h]
  · intro h
    by_cases hc : st.currentConversation.isEmpty <;>
      simp [stopCurrentRequest, h, sendAndSaveMessage, hc]

/-- A provider state with a live subprocess. -/
def stopBusyState : ProviderState :=
  { initialState "/q" with
      currentClaudeProcess := some ()
      isProcessing := true }

/-- Witness for C6 at a concrete idle state and a concrete state with a
live subprocess. -/
theorem stop_request_spec_witness :
    (stopCurrentRequest 3 (initialState "/q") = (initialState "/q", [])) ∧
    ((stopCurrentRequest 4 stopBusyState).2 =
        [Effect.kill "SIGTERM",
         Effect.post { type := "error", data := .str "Claude code was stopped." }] ∧
      (stopCurrentRequest 4 stopBusyState).1.isProcessing = false ∧
      (stopCurrentRequest 4 stopBusyState).1.currentClaudeProcess = none ∧
      (stopCurrentRequest 4 stopBusyState).1.currentConversation =
        stopBusyState.currentConversation ++
          [{ timestamp := isoTimestamp 4, messageType := "error",
             data := .str "Claude code was stopped.", typeField := none }] ∧
      (stopCurrentRequest 4 stopBusyState).1.currentSessionId =
        stopBusyState.currentSessionId ∧
      (stopCurrentRequest 4 stopBusyState).1.totalCost = stopBusyState.totalCost ∧
      (stopCurrentRequest 4 stopBusyState).1.totalTokensInput =
        stopBusyState.totalTokensInput ∧
      (stopCurrentRequest 4 stopBusyState).1.totalTokensOutput =
        stopBusyState.totalTokensOutput ∧
      (stopCurrentRequest 4 stopBusyState).1.requestCount =
        stopBusyState.requestCount) :=
  ⟨(stop_request_spec 3 (initialState "/q")).1 rfl,
   (stop_request_spec 4 stopBusyState).2 rfl⟩

/-- State after a Bash ls approval request has been raised. -/
def permAskedState : ProviderState :=
  (handlePermissionRequest 1 "Bash" "ls" (initialState "/p")).1

/-- State after responding to that request with approved and always
allow. -/
def permRespondedState : ProviderState :=
  (handlePermissionResponse "perm_1" true true permAskedState).1

/-- C7, evaluated on the code: the first request for Bash ls suspends
under perm_1; responding approved with always allow invokes and removes
the resolver but persists no allow-list entry, because the response
handler reads the pending map under a data-suffixed key that nothing ever
stores; hence a second identical request does not resolve immediately and
pushes a fresh permissionRequest event. -/
theorem always_allow_never_persisted :
    (handlePermissionRequest 1 "Bash" "ls" (initialState "/p")).2.2 =
      ApprovalOutcome.pendingId "perm_1" ∧
    (handlePermissionResponse "perm_1" true true permAskedState).2 =
      [Effect.resolvePromise "perm_1" true] ∧
    permRespondedState.permissions = [] ∧
    permRespondedState.pendingPermissions = [] ∧
    (handlePermissionRequest 2 "Bash" "ls" permRespondedState).2.2 =
      ApprovalOutcome.pendingId "perm_2" ∧
    (handlePermissionRequest 2 "Bash" "ls" permRespondedState).2.1 =
      [Effect.post { type := "permissionRequest",
                     data := .permReq "perm_2" "Bash" "ls" }] := by
  refine ⟨by decide, by decide, by decide, by decide, by decide, by decide⟩

/-- The stored entry of the record used against C9. -/
def c9Entry : Entry :=
  { timestamp := "1", messageType := "userInput", data := .str "hello world",
    typeField := none }

/-- A persisted record holding exactly one user input entry. -/
def c9Record : ConversationData :=
  { sessionId := some "s1", title := some "hello world", startTime := some "1",
    endTime := some "2", messageCount := some 1, totalCost := some 0,
    totalTokensInput := some 3, totalTokensOutput := some 4,
    messages := [c9Entry] }

/-- C9, evaluated on the code: loading the record does replace the whole
in-memory session, but the request count comes out 0 although the record
holds one user input entry, because the filter reads a type property
while stored entries carry the messageType property. -/
theorem load_request_count_zero :
    (loadConversation "s1" [("s1.json", c9Record)] (initialState "/p")).2 =
      some c9Record ∧
    (loadConversation "s1" [("s1.json", c9Record)] (initialState "/p")).1.currentSessionId =
      some "s1" ∧
    (loadConversation "s1" [("s1.json", c9Record)] (initialState "/p")).1.currentConversation =
      [c9Entry] ∧
    (loadConversation "s1" [("s1.json", c9Record)] (initialState "/p")).1.totalTokensInput = 3 ∧
    (loadConversation "s1" [("s1.json", c9Record)] (initialState "/p")).1.requestCount = 0 ∧
    (c9Record.messages.filter (fun m => m.messageType == "userInput")).length = 1 := by
  refine ⟨by decide, by decide, by decide, by decide, by decide, by decide⟩

/-- The stdout line of the spec example, an assistant frame with one text
block. -/
def helloLine : String :=
  "\x7b\"type\":\"assistant\",\"message\":\x7b\"role\":\"assistant\",\"content\":[\x7b\"type\":\"text\",\"text\":\"Hello\"\x7d]\x7d\x7d"

/-- The decoded form of helloLine, projected onto the dispatcher
fields. -/
def helloFrame : StreamFrame :=
  { type := some "assistant", subtype := none, session_id := none,
    message := some { role := some "assistant",
                      content := [ContentBlock.text "Hello"], usage := none },
    usage := none, tools := none, mcp_servers := none, duration := none,
    cost := none, total_cost_usd := none }

/-- C4: decoding the spec example line yields exactly one output event
with data Hello together with exactly one appended entry carrying the same
payload, as the two halves of the single sendAndSaveMessage step, and no
other session state moves. -/
theorem hello_line_single_output (now : Nat)
    (parse : String → Option StreamFrame) (st : ProviderState)
    (hp : parse (jsTrim helloLine) = some helloFrame) :
    (processLine now parse helloLine st).2 =
      [Effect.post { type := "output", data := .str "Hello" }] ∧
    (processLine now parse helloLine st).1.currentConversation =
      st.currentConversation ++
        [{ timestamp := isoTimestamp now, messageType := "output",
           data := .str "Hello", typeField := none }] ∧
    (processLine now parse helloLine st).1.totalTokensInput =
      st.totalTokensInput ∧
    (processLine now parse helloLine st).1.totalTokensOutput =
      st.totalTokensOutput ∧
    (processLine now parse helloLine st).1.totalCost = st.totalCost ∧
    (processLine now parse helloLine st).1.requestCount = st.requestCount ∧
    (processLine now parse helloLine st).1.currentSessionId =
      st.currentSessionId := by
  have hne : jsTrim helloLine ≠ "" := by decide
  have hh : jsTrim "Hello" = "Hello" := by decide
  cases hcv : st.currentConversation <;>
    simp [processLine, hne, hp, processJsonStreamData, helloFrame,
      processAssistantContent, sendAndSaveMessage, hcv, hh]

/-- A decoder resolving exactly the spec example line. -/
def helloParse : String → Option StreamFrame :=
  fun s => if s = helloLine then some helloFrame else none

/-- Witness for C4 with the concrete decoder on a fresh provider state. -/
theorem hello_line_single_output_witness :
    helloParse (jsTrim helloLine) = some helloFrame ∧
      (processLine 9 helloParse helloLine (initialState "/p")).2 =
        [Effect.post { type := "output", data := .str "Hello" }] :=
  ⟨by decide,
   (hello_line_single_output 9 helloParse (initialState "/p") (by decide)).1⟩

/-- A session with one entry but no session identifier. -/
def noIdState : ProviderState :=
  { initialState "/p" with
      currentConversation :=
        [{ timestamp := "1", messageType := "userInput",
           data := .str "hello", typeField := none }] }

/-- C2 counterexample: a successful exit of a session holding one entry
but no identifier writes nothing at all, in particular no record under a
time-based fallback name, because the save routine returns before its
filename fallback can ever apply. -/
theorem exit_without_id_not_persisted :
    noIdState.currentSessionId = none ∧
    noIdState.currentConversation.length = 1 ∧
    (onProcessClose 5 (some 0) "" noIdState).1.currentConversation.length = 1 ∧
    savedRecords (onProcessClose 5 (some 0) "" noIdState).2 = [] := by
  refine ⟨by decide, by decide, by decide, by decide⟩

theorem saveCurrentConversation_spec (now : Nat) (s : ProviderState) :
    (savedRecords (saveCurrentConversation now s)).isEmpty =
      (!strOptTruthy s.currentSessionId || s.currentConversation.isEmpty) ∧
    ((savedRecords (saveCurrentConversation now s)).all fun fr =>
        fr.1 == s.currentSessionId.getD "" ++ ".json" &&
        fr.2.messages == s.currentConversation &&
        fr.2.sessionId == s.currentSessionId &&
        fr.2.totalCost == some s.totalCost &&
        fr.2.totalTokensInput == some s.totalTokensInput &&
        fr.2.totalTokensOutput == some s.totalTokensOutput) = true := by
  cases h1 : strOptTruthy s.currentSessionId <;>
    cases h2 : s.currentConversation.isEmpty <;>
      simp [saveCurrentConversation, h1, h2, savedRecords]

/-- C2 amended: every subprocess exit runs the conversation save, which
writes the full session record exactly when the session identifier is
truthy and the conversation after the exit handling is non-empty, and then
always under the session identifier filename; without a truthy identifier
nothing is written, so the time-based fallback name never occurs. -/
theorem exit_persistence_rule (now : Nat) (code : Option Int) (err : String)
    (st : ProviderState) :
    savedRecords (onProcessClose now code err st).2 =
      savedRecords
        (saveCurrentConversation now (onProcessClose now code err st).1) ∧
    (savedRecords (onProcessClose now code err st).2).isEmpty =
      (!strOptTruthy (onProcessClose now code err st).1.currentSessionId ||
        (onProcessClose now code err st).1.currentConversation.isEmpty) ∧
    ((savedRecords (onProcessClose now code err st).2).all fun fr =>
        fr.1 ==
          (onProcessClose now code err st).1.currentSessionId.getD "" ++
            ".json" &&
        fr.2.messages ==
          (onProcessClose now code err st).1.currentConversation &&
        fr.2.sessionId == (onProcessClose now code err st).1.currentSessionId &&
        fr.2.totalCost == some (onProcessClose now code err st).1.totalCost &&
        fr.2.totalTokensInput ==
          some (onProcessClose now code err st).1.totalTokensInput &&
        fr.2.totalTokensOutput ==
          some (onProcessClose now code err st).1.totalTokensOutput) = true := by
  have hA : savedRecords (onProcessClose now code err st).2 =
      savedRecords
        (saveCurrentConversation now (onProcessClose now code err st).1) := by
    by_cases hcode : code = some 0 <;>
      simp [onProcessClose, hcode, savedRecords_append, savedRecords,
        sendAndSaveMessage]
  refine ⟨hA, ?_, ?_⟩
  · rw [hA]
    exact (saveCurrentConversation_spec now _).1
  · rw [hA]
    exact (saveCurrentConversation_spec now _).2

/-- A session with an identifier whose sole user input entry is the empty
string. -/
def emptyInputState : ProviderState :=
  { initialState "/p" with
      currentSessionId := some "sess-abc"
      currentConversation :=
        [{ timestamp := "1", messageType := "userInput", data := .str "",
           typeField := none }] }

/-- C8 counterexample: with an empty first user input text the stored
title is the untitled fallback, not the empty string the leading-fifty
formula yields, because the source treats falsy entry data as absent. -/
theorem empty_input_title_fallback :
    ((savedRecords (saveCurrentConversation 2 emptyInputState)).map fun fr =>
        fr.2.title) = [some "Untitled Conversation"] ∧
    jsTrim (jsTake "" 50) = "" ∧
    "Untitled Conversation" ≠ "" := by
  refine ⟨by decide, by decide, by decide⟩

/-- C8 amended: when the first user input entry holds a non-empty string,
the saved title is its first fifty characters trimmed, with the ellipsis
marker exactly when the text is longer than fifty characters, and saving
twice with no new entries stores the identical title both times. -/
theorem title_derivation_rule (now₁ now₂ : Nat) (st : ProviderState)
    (m : Entry) (t : String)
    (hid : strOptTruthy st.currentSessionId = true)
    (hfind : st.currentConversation.find?
        (fun e => e.messageType == "userInput") = some m)
    (hdata : m.data = EventData.str t) (hne : t ≠ "") :
    ((savedRecords (saveCurrentConversation now₁ st)).map fun fr =>
        fr.2.title) =
      [some (if jsLength t > 50 then jsTrim (jsTake t 50) ++ "..."
             else jsTrim (jsTake t 50))] ∧
    ((savedRecords (saveCurrentConversation now₁ st)).map fun fr =>
        fr.2.title) =
      ((savedRecords (saveCurrentConversation now₂ st)).map fun fr =>
        fr.2.title) := by
  have hconv : st.currentConversation.isEmpty = false := by
    cases hcv : st.currentConversation with
    | nil => rw [hcv] at hfind; simp at hfind
    | cons a l => simp [hcv]
  have htitle : deriveTitle st.currentConversation =
      (if jsLength t > 50 then jsTrim (jsTake t 50) ++ "..."
       else jsTrim (jsTake t 50)) := by
    simp [deriveTitle, hfind, hdata, hne]
  simp [saveCurrentConversation, hid, hconv, savedRecords, htitle]

/-- A session whose sole user input entry is the word hello. -/
def helloTitleState : ProviderState :=
  { initialState "/p" with
      currentSessionId := some "w1"
      currentConversation :=
        [{ timestamp := "1", messageType := "userInput", data := .str "hello",
           typeField := none }] }

/-- Witness for the amended C8 at a concrete session. -/
theorem title_derivation_rule_witness :
    strOptTruthy helloTitleState.currentSessionId = true ∧
    helloTitleState.currentConversation.find?
        (fun e => e.messageType == "userInput") =
      some { timestamp := "1", messageType := "userInput",
             data := .str "hello", typeField := none } ∧
    ((savedRecords (saveCurrentConversation 1 helloTitleState)).map fun fr =>
        fr.2.title) =
      [some (if jsLength "hello" > 50 then
          jsTrim (jsTake "hello" 50) ++ "..."
        else jsTrim (jsTake "hello" 50))] :=
  ⟨by decide, by decide,
   (title_derivation_rule 1 2 helloTitleState
      { timestamp := "1", messageType := "userInput",
        data := .str "hello", typeField := none } "hello"
      (by decide) (by decide) rfl (by decide)).1⟩


/-- C5 counterexample: on a completely fresh session, with no prior
entries in memory and no identifier, the spawned argument list already
carries the continue flag, because the user input entry for the send is
appended before the argument list is built. -/
theorem fresh_send_gets_continue :
    (initialState "/p").currentConversation = [] ∧
    (initialState "/p").currentSessionId = none ∧
    spawnedArgs (sendMessage 0 false "hello" false false (initialState "/p")).2 =
      [["-p", "--output-format", "stream-json", "--verbose", "--continue"]] := by
  refine ⟨by decide, by decide, by decide⟩

theorem mem_claudeBaseArgs (mcp : Bool) (s : ProviderState) (x : String)
    (hx : x ∈ claudeBaseArgs mcp s) :
    x = "-p" ∨ x = "--output-format" ∨ x = "stream-json" ∨ x = "--verbose" ∨
    x = "--mcp-config" ∨ x = s.mcpConfigPath ∨ x = "--allowedTools" ∨
    x = "--permission-prompt-tool" ∨ x = approvalToolName := by
  cases mcp <;> simp [claudeBaseArgs] at hx <;> tauto

theorem mem_claudeTailArgs (think : Bool) (s : ProviderState) (x : String)
    (hx : x ∈ claudeTailArgs think s) :
    x = "--model" ∨ x = s.selectedModel ∨ x = "--think" := by
  cases think <;>
    by_cases hm : (s.selectedModel ≠ "" && s.selectedModel ≠ "default") = true <;>
      simp [claudeTailArgs, hm] at hx <;> tauto

theorem claudeArgs_flag_spec (mcp think : Bool) (s : ProviderState)
    (hlen : 0 < s.currentConversation.length)
    (hm1 : s.selectedModel ≠ "--resume") (hm2 : s.selectedModel ≠ "--continue")
    (hp1 : s.mcpConfigPath ≠ "--resume") (hp2 : s.mcpConfigPath ≠ "--continue") :
    (∀ id, s.currentSessionId = some id → isResumableId id = true →
      (∃ l r, claudeArgs mcp think s = l ++ ["--resume", id] ++ r) ∧
      (id ≠ "--continue" → "--continue" ∉ claudeArgs mcp think s)) ∧
    (resumeOkState s = false →
      "--resume" ∉ claudeArgs mcp think s ∧
      "--continue" ∈ claudeArgs mcp think s) := by
  constructor
  · intro id hsid hres
    have hcont : claudeContinueArgs s = ["--resume", id] := by
      simp [claudeContinueArgs, hsid, hres]
    constructor
    · exact ⟨claudeBaseArgs mcp s, claudeTailArgs think s, by
        simp [claudeArgs, hcont]⟩
    · intro hid hmem
      rw [claudeArgs, hcont] at hmem
      rcases List.mem_append.mp hmem with hmem' | htail
      · rcases List.mem_append.mp hmem' with hbase | hc
        · rcases mem_claudeBaseArgs mcp s _ hbase with
            h | h | h | h | h | h | h | h | h <;>
            first
              | exact absurd h (by decide)
              | exact hp2 h.symm
        · simp at hc
          exact hid hc.symm
      · rcases mem_claudeTailArgs think s _ htail with h | h | h <;>
          first
            | exact absurd h (by decide)
            | exact hm2 h.symm
  · intro hro
    have hcont : claudeContinueArgs s = ["--continue"] := by
      unfold resumeOkState at hro
      cases hsid : s.currentSessionId with
      | none => simp [claudeContinueArgs, hsid, hlen]
      | some id =>
          rw [hsid] at hro
          simp at hro
          simp [claudeContinueArgs, hsid, hro, hlen]
    constructor
    · intro hmem
      rw [claudeArgs, hcont] at hmem
      rcases List.mem_append.mp hmem with hmem' | htail
      · rcases List.mem_append.mp hmem' with hbase | hc
        · rcases mem_claudeBaseArgs mcp s _ hbase with
            h | h | h | h | h | h | h | h | h <;>
            first
              | exact absurd h (by decide)
              | exact hp1 h.symm
        · simp at hc
      · rcases mem_claudeTailArgs think s _ htail with h | h | h <;>
          first
            | exact absurd h (by decide)
            | exact hm1 h.symm
    · rw [claudeArgs, hcont]
      simp

theorem sendMessage_spawn (now : Nat) (mcp : Bool) (message : String)
    (plan think : Bool) (st : ProviderState) (h : st.isProcessing = false) :
    ∃ s₂ : ProviderState,
      spawnedArgs (sendMessage now mcp message plan think st).2 =
        [claudeArgs mcp think s₂] ∧
      s₂.currentSessionId = st.currentSessionId ∧
      s₂.selectedModel = st.selectedModel ∧
      s₂.mcpConfigPath = st.mcpConfigPath ∧
      0 < s₂.currentConversation.length := by
  refine ⟨{ (sendAndSaveMessage now { type := "userInput", data := .str message }
      (if strOptTruthy st.currentSessionId then st
       else { st with conversationStartTime := some (isoTimestamp now) })).1 with
        isProcessing := true }, ?_, ?_, ?_, ?_, ?_⟩ <;>
    cases hsid : strOptTruthy st.currentSessionId <;>
      cases hcv : st.currentConversation <;>
        simp [sendMessage, h, hsid, hcv, spawnedArgs, sendAndSaveMessage]

/-- C5 amended: for every accepted send the single spawned argument list
contains the resume flag with the identifier exactly when the current
identifier is truthy and free of the locally generated prefixes, and
otherwise contains the continue flag, always, because the user input entry
appended before argument construction makes the conversation non-empty, so
the no-flag case is unreachable.  The string side conditions keep the
model name and config path from colliding with the flag literals. -/
theorem continuation_flag_rule (now : Nat) (mcp : Bool) (message : String)
    (plan think : Bool) (st : ProviderState)
    (hbusy : st.isProcessing = false)
    (hm1 : st.selectedModel ≠ "--resume")
    (hm2 : st.selectedModel ≠ "--continue")
    (hp1 : st.mcpConfigPath ≠ "--resume")
    (hp2 : st.mcpConfigPath ≠ "--continue") :
    (spawnedArgs (sendMessage now mcp message plan think st).2).length = 1 ∧
    ∀ args ∈ spawnedArgs (sendMessage now mcp message plan think st).2,
      (∀ id, st.currentSessionId = some id → isResumableId id = true →
        (∃ l r, args = l ++ ["--resume", id] ++ r) ∧
        (id ≠ "--continue" → "--continue" ∉ args)) ∧
      (resumeOkState st = false →
        "--resume" ∉ args ∧ "--continue" ∈ args) := by
  obtain ⟨s₂, hspawn, hsid, hmodel, hpath, hlen⟩ :=
    sendMessage_spawn now mcp message plan think st hbusy
  have hspec := claudeArgs_flag_spec mcp think s₂ hlen
    (by rw [hmodel]; exact hm1) (by rw [hmodel]; exact hm2)
    (by rw [hpath]; exact hp1) (by rw [hpath]; exact hp2)
  constructor
  · rw [hspawn]
    rfl
  · intro args hargs
    rw [hspawn] at hargs
    have hargs' : args = claudeArgs mcp think s₂ := by simpa using hargs
    subst hargs'
    constructor
    · intro id hid hres
      exact hspec.1 id (hsid.trans hid) hres
    · intro hro
      have hro₂ : resumeOkState s₂ = false := by
        unfold resumeOkState at hro ⊢
        rw [hsid]
        exact hro
      exact hspec.2 hro₂

/-- A provider state carrying an assistant-assigned session identifier. -/
def resumableState : ProviderState :=
  { initialState "/p" with currentSessionId := some "abc123" }

/-- Witness for the amended C5 at a concrete resumable state. -/
theorem continuation_flag_rule_witness :
    resumableState.isProcessing = false ∧
    resumableState.selectedModel ≠ "--resume" ∧
    resumableState.selectedModel ≠ "--continue" ∧
    resumableState.mcpConfigPath ≠ "--resume" ∧
    resumableState.mcpConfigPath ≠ "--continue" ∧
    ((spawnedArgs (sendMessage 3 false "hi" false false resumableState).2).length = 1 ∧
      ∀ args ∈ spawnedArgs (sendMessage 3 false "hi" false false resumableState).2,
        (∀ id, resumableState.currentSessionId = some id →
            isResumableId id = true →
          (∃ l r, args = l ++ ["--resume", id] ++ r) ∧
          (id ≠ "--continue" → "--continue" ∉ args)) ∧
        (resumeOkState resumableState = false →
          "--resume" ∉ args ∧ "--continue" ∈ args)) :=
  ⟨rfl, by decide, by decide, by decide, by decide,
   continuation_flag_rule 3 false "hi" false false resumableState rfl
     (by decide) (by decide) (by decide) (by decide)⟩

mutual

theorem searchItem_clean (t : String) (pre : List String)
    (hpre : (pre.all fun c => !skipName c) = true) (i : FsItem) :
    ((searchItem t pre i).all fun p => p.all fun c => !skipName c) = true := by
  cases i with
  | file n =>
      by_cases hs : skipName n = true
      · simp [searchItem, hs]
      · by_cases hm : matchesTerm t n = true
        · simp only [searchItem, hs, hm]
          simp only [Bool.not_eq_true] at hs
          simp [List.all_append, hpre, hs]
        · simp only [Bool.not_eq_true] at hs hm
          simp [searchItem, hs, hm]
  | dir n cs =>
      by_cases hs : skipName n = true
      · simp [searchItem, hs]
      · have hrec := searchItems_clean t (pre ++ [n])
          (by
            simp only [Bool.not_eq_true] at hs
            simp [List.all_append, hpre, hs]) cs
        simp only [Bool.not_eq_true] at hs
        simpa [searchItem, hs] using hrec

theorem searchItems_clean (t : String) (pre : List String)
    (hpre : (pre.all fun c => !skipName c) = true) (is : List FsItem) :
    ((searchItems t pre is).all fun p => p.all fun c => !skipName c) = true := by
  cases is with
  | nil => simp [searchItems]
  | cons i rest =>
      have h1 := searchItem_clean t pre hpre i
      have h2 := searchItems_clean t pre hpre rest
      simp [searchItems, List.all_append, h1, h2]

end

/-- C10: every search pushes exactly one workspaceFiles event, its list
holds at most fifty entries, and no listed path contains a component that
is hidden or is the node_modules directory, so nothing under node_modules
ever appears. -/
theorem workspace_files_filtered (searchTerm : String) (root : List FsItem) :
    getWorkspaceFiles searchTerm root =
      [Effect.post { type := "workspaceFiles",
                     data := .files (limitedFiles searchTerm root) }] ∧
    (limitedFiles searchTerm root).length ≤ 50 ∧
    ((limitedFiles searchTerm root).all fun f =>
        f.path.all fun c => !skipName c) = true := by
  refine ⟨rfl, ?_, ?_⟩
  · simp only [limitedFiles, List.length_map, List.length_take]
    omega
  · have hall := searchItems_clean searchTerm [] (by simp) root
    rw [List.all_eq_true] at hall ⊢
    intro f hf
    simp only [limitedFiles, List.mem_map] at hf
    obtain ⟨p, hp, rfl⟩ := hf
    exact hall p (List.take_subset 50 _ hp)
